import Mathlib

/-!
Verification development for the pydev-ai iteration engine.

The definitions below are shallow embeddings of the Python source under
`src/`: paths are modelled as lists of components, filesystems as
association lists from paths to entries, Python dictionaries as
association lists, and fallible Python code as `Except`-valued functions.
Each definition's doc comment names the source function it embeds.
-/

namespace PydevAI

/-- Error values corresponding to Python exceptions raised by the embedded code. -/
inductive PyErr where
  | typeError
  | nameError
  | isADirectoryError
  | fileExistsError
  | valueError
  deriving DecidableEq, Repr

/-- A filesystem path, modelled as its list of components (no empty components). -/
abbrev FPath := List String

/-- Pure text filesystem: a finite map from paths to file contents,
modelled as an association list (one entry per file, directories implicit). -/
abbrev TextFS := List (FPath × String)

/-- Lookup of a file's content in a text filesystem. -/
def fsLookup (fs : TextFS) (p : FPath) : Option String :=
  (fs.find? (fun e => e.1 = p)).map (·.2)

/-- Removal of a file entry (Python `Path.unlink`, tolerant of absence). -/
def fsErase (fs : TextFS) (p : FPath) : TextFS :=
  fs.filter (fun e => ¬ e.1 = p)

/-- Name (final component) of a path; empty for the root. -/
def fileName (p : FPath) : String := p.getLastD ""

/-- Split a character list on a separator, keeping empty parts (embedding
Python `str.split(sep)`); `cur` is the reversed current part. -/
def splitGo (sep : Char) (cur : List Char) : List Char → List (List Char)
  | [] => [cur.reverse]
  | c :: rest =>
      if c = sep then cur.reverse :: splitGo sep [] rest
      else splitGo sep (c :: cur) rest

/-- The non-empty slash-separated components of a path string. -/
def pathComponents (s : String) : List String :=
  ((splitGo '/' [] s.data).map (fun l => (⟨l⟩ : String))).filter (fun c => ¬ c = "")

/-- Does the string start with the given character? -/
def headIs (s : String) (c : Char) : Bool := decide (s.data.head? = some c)

/-- Embedding of Python `pathlib.PurePath.suffix`: the final extension of the
last component, empty for names with no dot or for a leading-dot-only name. -/
def nameSuffix (name : String) : String :=
  let parts := (splitGo '.' [] name.data).map (fun l => (⟨l⟩ : String))
  if parts.length ≤ 1 then ""
  else if headIs name '.' ∧ parts.length = 2 then ""
  else "." ++ parts.getLastD ""

/-- Replacement of the last component's extension, embedding
`PurePath.with_suffix`; the existing suffix (as computed by `nameSuffix`)
is dropped and the new one appended. -/
def withSuffix (p : FPath) (suf : String) : FPath :=
  match p.getLast? with
  | none => p
  | some name =>
      let stem := name.dropRight (nameSuffix name).length
      p.dropLast ++ [stem ++ suf]

/-- Rendering of a path relative to some root as a POSIX string
(embedding `str(Path(...))` on a relative path). -/
def renderRel (p : FPath) : String := String.intercalate "/" p

/-- Embedding of `Path(s)` followed by `.resolve()` for a dot-free path
string `s`: absolute strings (leading `/`) are split on `/`; relative
strings are resolved against the current working directory. -/
def resolveStr (cwd : FPath) (s : String) : FPath :=
  if headIs s '/' then pathComponents s else cwd ++ pathComponents s

/-- Embedding of `p.relative_to(base)`: the remaining components when
`base` is a prefix of `p`, and `none` (Python `ValueError`) otherwise. -/
def relativeTo (base p : FPath) : Option FPath :=
  if base.isPrefixOf p then some (p.drop base.length) else none

/-! ## Content sanitizer (`src/flows/utils.py`, `sanitize_generated_content`)

The function is embedded at the level of Unicode code points and UTF-8
bytes: Python's `str.strip`, `str.splitlines`, substring search,
`str.encode("utf-8")` and `bytes.decode("unicode_escape")` are each given
an executable counterpart. Fallible decoding is an `Except`, whose
`error` constructor corresponds to Python raising `UnicodeDecodeError`.
-/

/-- Whitespace characters stripped by `str.strip` (ASCII subset; Python
additionally strips some rare Unicode space characters, which no modelled
input contains). -/
def isPySpace (c : Char) : Bool :=
  c = ' ' ∨ c = '\t' ∨ c = '\n' ∨ c = '\r' ∨ c = Char.ofNat 11 ∨ c = Char.ofNat 12

/-- Embedding of `str.strip()`. -/
def stripChars (l : List Char) : List Char :=
  ((l.dropWhile isPySpace).reverse.dropWhile isPySpace).reverse

/-- Embedding of `str.strip()` on strings. -/
def pyStrip (s : String) : String := ⟨stripChars s.data⟩

/-- Line-break characters recognised by `str.splitlines`. -/
def isLineBreakChar (c : Char) : Bool :=
  c = '\n' ∨ c = '\r' ∨ c = Char.ofNat 11 ∨ c = Char.ofNat 12 ∨
  c = Char.ofNat 28 ∨ c = Char.ofNat 29 ∨ c = Char.ofNat 30 ∨
  c = Char.ofNat 133 ∨ c = Char.ofNat 8232 ∨ c = Char.ofNat 8233

/-- Worker for `pySplitlines`; `cur` is the reversed current line. -/
def splitlinesGo (cur : List Char) : List Char → List (List Char)
  | [] => if cur.isEmpty then [] else [cur.reverse]
  | '\r' :: '\n' :: rest => cur.reverse :: splitlinesGo [] rest
  | c :: rest =>
      if isLineBreakChar c then cur.reverse :: splitlinesGo [] rest
      else splitlinesGo (c :: cur) rest

/-- Embedding of `str.splitlines()` (no trailing empty line for a trailing
terminator; `\r\n` counts as one break). -/
def pySplitlines (l : List Char) : List (List Char) := splitlinesGo [] l

/-- Embedding of `"\n".join(lines)`. -/
def joinNL : List (List Char) → List Char
  | [] => []
  | [x] => x
  | x :: y :: xs => x ++ '\n' :: joinNL (y :: xs)

/-- The backtick character (code point 96). -/
def backtickChar : Char := Char.ofNat 96

/-- The three-backtick fence token. -/
def fenceTok : List Char := [backtickChar, backtickChar, backtickChar]

/-- Embedding of the fence-stripping branch of `sanitize_generated_content`
(utils.py lines 24-33): when the stripped text starts with a triple-backtick
fence, the first line is dropped, a closing fence line is dropped, and the
remaining lines are rejoined with newlines. -/
def stripFenceStep (l : List Char) : List Char :=
  if fenceTok.isPrefixOf l then
    let lines := pySplitlines l
    let lines := if lines.isEmpty then lines else lines.drop 1
    let lines :=
      if ¬ lines.isEmpty ∧ fenceTok.isPrefixOf (stripChars (lines.getLastD [])) then
        lines.dropLast
      else lines
    joinNL lines
  else l

/-- Decidable substring containment of `pat` in a character list
(embedding Python's `pat in s`). -/
def containsSeq (pat : List Char) : List Char → Bool
  | [] => pat.isEmpty
  | c :: rest => pat.isPrefixOf (c :: rest) || containsSeq pat rest

/-- The guard of the unescape pass (utils.py line 37): the text contains a
literal backslash-n, backslash-t or backslash-r sequence. -/
def hasLiteralEscapes (l : List Char) : Bool :=
  containsSeq ['\\', 'n'] l || containsSeq ['\\', 't'] l || containsSeq ['\\', 'r'] l

/-- UTF-8 encoding of one code point (embedding of `str.encode("utf-8")`,
per character). -/
def utf8EncodeChar (c : Char) : List Nat :=
  let n := c.toNat
  if n < 128 then [n]
  else if n < 2048 then [192 + n / 64, 128 + n % 64]
  else if n < 65536 then [224 + n / 4096, 128 + (n / 64) % 64, 128 + n % 64]
  else [240 + n / 262144, 128 + (n / 4096) % 64, 128 + (n / 64) % 64, 128 + n % 64]

/-- UTF-8 encoding of a code-point list. -/
def utf8Encode (l : List Char) : List Nat :=
  l.foldr (fun c acc => utf8EncodeChar c ++ acc) []

/-- Value of a hexadecimal digit byte, if any. -/
def hexVal (b : Nat) : Option Nat :=
  if 48 ≤ b ∧ b ≤ 57 then some (b - 48)
  else if 97 ≤ b ∧ b ≤ 102 then some (b - 87)
  else if 65 ≤ b ∧ b ≤ 70 then some (b - 55)
  else none

/-- Consume exactly `k` hexadecimal digit bytes, accumulating their value;
`none` when a digit is missing (a truncated escape). -/
def takeHexAcc (acc : Nat) : Nat → List Nat → Option (Nat × List Nat)
  | 0, bs => some (acc, bs)
  | _ + 1, [] => none
  | k + 1, b :: bs =>
      match hexVal b with
      | none => none
      | some d => takeHexAcc (acc * 16 + d) k bs

/-- Consume up to `k` further octal digit bytes. -/
def takeOctMore (v : Nat) : Nat → List Nat → Nat × List Nat
  | 0, bs => (v, bs)
  | _ + 1, [] => (v, [])
  | k + 1, b :: bs =>
      if 48 ≤ b ∧ b ≤ 55 then takeOctMore (v * 8 + (b - 48)) k bs else (v, b :: bs)

/-- Is `n` a valid Unicode scalar value (representable as a Lean `Char`)? -/
def isScalar (n : Nat) : Bool := n < 55296 ∨ (57343 < n ∧ n ≤ 1114111)

/-- One processed escape: prepend `c` to a pending decode result. -/
def consDecoded (c : Char) (r : Except String (List Char)) : Except String (List Char) :=
  r.map (fun l => c :: l)

/-- Worker for `bytes.decode("unicode_escape")`. The fuel argument starts at
the byte count; every recursive call consumes at least one byte, so the
fuel-exhausted branch is unreachable. Divergences from CPython, none of
which any claim, witness or counterexample exercises: `\uXXXX`/`\UXXXXXXXX`
escapes denoting surrogates (which a Lean `Char` cannot hold) and `\N{...}`
escapes (which consult the Unicode name database) are modelled as errors. -/
def uescGo : Nat → List Nat → Except String (List Char)
  | _, [] => Except.ok []
  | 0, _ :: _ => Except.error "fuel exhausted"
  | f + 1, 92 :: bs =>
      match bs with
      | [] => Except.error "backslash at end of string"
      | b :: bs2 =>
          if b = 110 then consDecoded '\n' (uescGo f bs2)
          else if b = 116 then consDecoded '\t' (uescGo f bs2)
          else if b = 114 then consDecoded '\r' (uescGo f bs2)
          else if b = 92 then consDecoded '\\' (uescGo f bs2)
          else if b = 39 then consDecoded (Char.ofNat 39) (uescGo f bs2)
          else if b = 34 then consDecoded '"' (uescGo f bs2)
          else if b = 97 then consDecoded (Char.ofNat 7) (uescGo f bs2)
          else if b = 98 then consDecoded (Char.ofNat 8) (uescGo f bs2)
          else if b = 102 then consDecoded (Char.ofNat 12) (uescGo f bs2)
          else if b = 118 then consDecoded (Char.ofNat 11) (uescGo f bs2)
          else if b = 10 then uescGo f bs2
          else if 48 ≤ b ∧ b ≤ 55 then
            let p := takeOctMore (b - 48) 2 bs2
            consDecoded (Char.ofNat p.1) (uescGo f p.2)
          else if b = 120 then
            match takeHexAcc 0 2 bs2 with
            | none => Except.error "truncated \\xXX escape"
            | some p => consDecoded (Char.ofNat p.1) (uescGo f p.2)
          else if b = 117 then
            match takeHexAcc 0 4 bs2 with
            | none => Except.error "truncated \\uXXXX escape"
            | some p =>
                if isScalar p.1 then consDecoded (Char.ofNat p.1) (uescGo f p.2)
                else Except.error "surrogate code point"
          else if b = 85 then
            match takeHexAcc 0 8 bs2 with
            | none => Except.error "truncated \\UXXXXXXXX escape"
            | some p =>
                if isScalar p.1 then consDecoded (Char.ofNat p.1) (uescGo f p.2)
                else Except.error "illegal Unicode character"
          else if b = 78 then Except.error "unsupported \\N escape"
          else (uescGo f bs2).map (fun l => '\\' :: Char.ofNat b :: l)
  | f + 1, b :: bs => (uescGo f bs).map (fun l => Char.ofNat b :: l)

/-- Embedding of `bytes.decode("unicode_escape")`: bytes outside escapes
decode as Latin-1. -/
def unicodeEscapeBytes (bs : List Nat) : Except String (List Char) :=
  uescGo bs.length bs

/-- Embedding of `s.encode("utf-8").decode("unicode_escape")`
(utils.py line 38). -/
def pyUnicodeEscape (l : List Char) : Except String (List Char) :=
  unicodeEscapeBytes (utf8Encode l)

/-- Does the character list end with a newline? -/
def endsNL (l : List Char) : Bool := decide (l.getLast? = some '\n')

/-- Embedding of `sanitize_generated_content` (utils.py lines 10-44) on
character lists: strip, drop a surrounding code fence, conditionally
unescape literal escape sequences (which can fail), and ensure a trailing
newline. -/
def sanitizeL (l : List Char) : Except String (List Char) :=
  match (if hasLiteralEscapes (stripFenceStep (stripChars l)) then
      pyUnicodeEscape (stripFenceStep (stripChars l))
    else Except.ok (stripFenceStep (stripChars l))) with
  | Except.error e => Except.error e
  | Except.ok s2 => Except.ok (if endsNL s2 then s2 else s2 ++ ['\n'])

/-- Embedding of `sanitize_generated_content` on strings; `Except.error`
corresponds to the Python function raising. -/
def sanitize_generated_content (text : String) : Except String String :=
  (sanitizeL text.data).map (fun l => ⟨l⟩)

/-- Does the string end with a newline character? -/
def endsWithNewline (s : String) : Bool := endsNL s.data

/-! ## Fixer tier selection (`src/crews/debug/bug_fixer_crew.py`) -/

/-- The three bug-fixer crew tiers: `JuniorBugFixerCrew`, `SeniorBugFixerCrew`
and `LeadBugFixerCrew`, which differ only in the LLM backing the agent. -/
inductive FixerTier where
  | junior
  | senior
  | lead
  deriving DecidableEq, Repr

/-- Embedding of `bug_fixer_for_points` (bug_fixer_crew.py lines 51-62):
select the fixer crew tier according to the bug's points. -/
def bug_fixer_for_points (points : Int) : FixerTier :=
  if points ≤ 1 then FixerTier.junior
  else if points = 2 then FixerTier.senior
  else FixerTier.lead

/-! ## Filesystem tool `write_empty_files` (`src/tools/file_system.py` lines 8-49)

For this tool the filesystem distinguishes regular files from directories:
an association list from paths to entries. Input paths are modelled as
already absolute, `~`-free and normalized, on which Python's `expanduser`
and `resolve` are the identity.
-/

/-- A filesystem entry: a regular file with its text content, or a directory. -/
inductive DEntry where
  | file (content : String)
  | dir
  deriving DecidableEq, Repr

/-- Filesystem with directories: association list from paths to entries. -/
abbrev DirFS := List (FPath × DEntry)

/-- Lookup of the entry at a path (first matching entry). -/
def dfsLookup (fs : DirFS) (p : FPath) : Option DEntry :=
  match fs with
  | [] => none
  | e :: rest => if e.1 = p then some e.2 else dfsLookup rest p

/-- Replace the entry at a path, or append a new one. -/
def dfsSet (fs : DirFS) (p : FPath) (v : DEntry) : DirFS :=
  match fs with
  | [] => [(p, v)]
  | e :: rest => if e.1 = p then (p, v) :: rest else e :: dfsSet rest p v

/-- Is the entry at `a` a regular file? -/
def isFileAt (fs : DirFS) (a : FPath) : Bool :=
  match dfsLookup fs a with
  | some (DEntry.file _) => true
  | _ => false

/-- The nonempty prefixes of a path, shortest first: the directory chain
created by `mkdir(parents=True)`. -/
def prefixesOf (p : FPath) : List FPath :=
  (List.range p.length).map (fun k => p.take (k + 1))

/-- Create each directory of a chain in turn, tolerating existing
directories (`exist_ok=True`) and failing when a regular file is in the
way (Python raises `FileExistsError` or `NotADirectoryError`; modelled
uniformly as `fileExistsError`). -/
def mkdirChain (fs : DirFS) : List FPath → Except PyErr DirFS
  | [] => Except.ok fs
  | a :: as =>
      match dfsLookup fs a with
      | some (DEntry.file _) => Except.error PyErr.fileExistsError
      | some DEntry.dir => mkdirChain fs as
      | none => mkdirChain (dfsSet fs a DEntry.dir) as

/-- Embedding of `path.parent.mkdir(parents=True, exist_ok=True)`. -/
def mkdirParents (fs : DirFS) (p : FPath) : Except PyErr DirFS :=
  mkdirChain fs (prefixesOf p.dropLast)

/-- Worker for `write_empty_files`: per path, ensure the parent directory
chain, raise `IsADirectoryError` when the path names a directory, then
create or truncate the file and record its (absolute) path. -/
def writeEmptyGo (fs : DirFS) (written : List FPath) : List FPath → Except PyErr (DirFS × List FPath)
  | [] => Except.ok (fs, written)
  | p :: ps =>
      match mkdirParents fs p with
      | Except.error e => Except.error e
      | Except.ok fs1 =>
          match dfsLookup fs1 p with
          | some DEntry.dir => Except.error PyErr.isADirectoryError
          | _ => writeEmptyGo (dfsSet fs1 p (DEntry.file "")) (written ++ [p]) ps

/-- Embedding of `write_empty_files` (file_system.py lines 8-49): create or
truncate an empty file for each path, returning the written paths. -/
def write_empty_files (artifacts : List FPath) (fs : DirFS) : Except PyErr (DirFS × List FPath) :=
  writeEmptyGo fs [] artifacts

/-- No proper ancestor of `p` is a regular file (so the `mkdir` of the
parent chain cannot fail). -/
def ancestorsOk (fs : DirFS) (p : FPath) : Bool :=
  (prefixesOf p.dropLast).all (fun a => ! isFileAt fs a)

/-! ## Summary store helpers (`src/flows/common.py`, `src/flows/iterate_flow.py`)

`generate_file_summaries_from_chunk` and
`generate_module_summaries_from_file_summaries` (common.py lines 11 and 34)
each declare two required positional parameters, but the `IterateFlow`
wrappers `_process_file_summaries_chunk` and
`_process_module_summaries_from_file_summaries` (iterate_flow.py lines
72-76) call them with a single argument; CPython raises `TypeError` at the
call, before the function body (and any crew kickoff) runs. The two call
wrappers are therefore embedded as the `TypeError` they raise.
-/

/-- Embedding of `IterateFlow._process_file_summaries_chunk` (iterate_flow.py
lines 72-73): the call `generate_file_summaries_from_chunk(chunk)` supplies
one of the two required positional arguments (common.py line 11 also takes
`summaries_dir`), so CPython raises `TypeError` before any collaborator call. -/
def processFileSummariesChunkCall (_content : String) : Except PyErr (List (String × String)) :=
  Except.error PyErr.typeError

/-- Embedding of `IterateFlow._process_module_summaries_from_file_summaries`
(iterate_flow.py lines 75-76): the call passes one of the two required
positional arguments of `generate_module_summaries_from_file_summaries`
(common.py line 34), so CPython raises `TypeError` before any collaborator
call. -/
def processModuleSummariesCall (_chunk : List (String × String)) : Except PyErr (List (String × String)) :=
  Except.error PyErr.typeError

/-- Modelled from the spec: `to_yaml_file_map` is imported by
iterate_flow.py from `.utils` but absent from flows/utils.py; per the spec
a summary artifact is written as one whole-file text. The exact format is
immaterial: every use sits behind a call that raises first. -/
def to_yaml_file_map (m : List (String × String)) : String :=
  String.intercalate "\n" (m.map (fun e => e.1 ++ ":\n" ++ e.2))

/-- Is `p` a direct child of directory `d` (that is, `p = d ++ [name]`)? -/
def isDirectChildOf (d p : FPath) : Bool :=
  d.isPrefixOf p && p.length = d.length + 1

/-- Embedding of `IterateFlow._collect_module_file_summaries` (iterate_flow.py
lines 100-118): scan the summaries module directory `summariesDir ++ relDir`
for `*.yaml` artifacts, skip the `_module.yaml` sentinel, and map each
repo-relative Python path to the artifact's text. Only the summaries tree is
consulted; `yaml_dir` existence checks are subsumed by an empty scan. -/
def collectModuleFileSummaries (summariesDir relDir : FPath) (fs : TextFS) : List (String × String) :=
  (fs.filter (fun e =>
      isDirectChildOf (summariesDir ++ relDir) e.1 && nameSuffix (fileName e.1) == ".yaml")).foldl
    (fun chunk e =>
      if fileName e.1 = "_module.yaml" then chunk
      else chunk ++ [(renderRel (withSuffix (relDir ++ [fileName e.1]) ".py"), e.2)]) []

/-- The named-input bundle handed to `ModuleSummariesCrew().crew().kickoff`
by `generate_module_summaries_from_file_summaries` (common.py lines 42-45):
exactly the per-file summaries mapping and the summaries directory string
(the field name reproduces the source's spelling). -/
structure ModuleCrewInput where
  invidual_summaries : List (String × String)
  summaries_dir : String
  deriving DecidableEq, Repr

/-- Construction of the ModuleSummariesCrew input bundle (common.py lines
42-45): built from the file-summaries mapping alone, never from source code. -/
def moduleSummariesCrewInput (file_summaries : List (String × String))
    (summaries_dir : String) : ModuleCrewInput :=
  ⟨file_summaries, summaries_dir⟩

/-! ## Action plan executor (`src/flows/iterate_flow.py`, `execute_action_plan`)

The executor is embedded for runs whose configuration has no test
directories (`self.test_dirs is None`), under which every
`_mirror_tests_*` helper returns at its first line; the claims' scenarios
are all of this shape. The collaborator crews behind path-resolution
mappings, diff generation and fix integration are oracles in the
configuration, already composed with the structured-output loader.
The source imports singular filesystem helpers (`delete_file`,
`rename_file`, ...) that `tools/file_system.py` does not define (it defines
iterable-taking plurals); they are modelled charitably as the corresponding
plural helper applied to a one-element list.
-/

/-- One action-plan step, with the dictionary fields the executor reads. -/
structure ActionStep where
  step : Option Int
  type : String
  path : String
  points : Int
  deriving DecidableEq, Repr

/-- One `{path, content_diff}` modification produced by a Modify-code step
(dictionary lookups may be absent, hence the `Option`s). -/
structure DiffMod where
  path : Option String
  content_diff : Option String
  deriving DecidableEq, Repr

/-- Executor configuration: resolved directories plus the collaborator
oracles (path-resolution mapping, diff generation, fix integration). -/
structure ExecCfg where
  cwd : FPath
  srcDir : FPath
  summariesDir : FPath
  mapOracle : String → String → List (String × String)
  diffOracle : ActionStep → List DiffMod
  integratorOracle : String → List (Option String) → String

/-- Write (create or overwrite) a file entry in a text filesystem. -/
def fsWrite (fs : TextFS) (p : FPath) (content : String) : TextFS :=
  match fs with
  | [] => [(p, content)]
  | e :: rest => if e.1 = p then (p, content) :: rest else e :: fsWrite rest p content

/-- Rendering of an absolute path (embedding `str(path)` for a resolved path). -/
def renderAbs (p : FPath) : String := "/" ++ renderRel p

/-- Embedding of `_is_py_file_under_src` (iterate_flow.py lines 565-572):
the resolved path is under `src_dir`, carries the `.py` suffix, and is not
a package marker. -/
def isPyFileUnderSrc (cfg : ExecCfg) (s : String) : Bool :=
  let p := resolveStr cfg.cwd s
  cfg.srcDir.isPrefixOf p && (nameSuffix (fileName p) == ".py") && (fileName p != "__init__.py")

/-- Embedding of `_summary_path_for_code` (iterate_flow.py lines 574-582). -/
def summaryPathForCode (cfg : ExecCfg) (s : String) : Option FPath :=
  (relativeTo cfg.srcDir (resolveStr cfg.cwd s)).map
    (fun rel => withSuffix (cfg.summariesDir ++ rel) ".yaml")

/-- Embedding of `_mirror_delete_files` (iterate_flow.py lines 584-595) as
invoked at line 728: the caller passes the step's path *string* where the
helper expects a list of paths, so Python's for-loop iterates the string's
single-character substrings; each is filtered by `_is_py_file_under_src`
before any summary unlink. -/
def mirrorDeleteFiles (cfg : ExecCfg) (pathStr : String) (fs : TextFS) : TextFS :=
  pathStr.data.foldl (fun fs c =>
    let fp := String.singleton c
    if isPyFileUnderSrc cfg fp then
      match summaryPathForCode cfg fp with
      | some sp => if (fsLookup fs sp).isSome then fsErase fs sp else fs
      | none => fs
    else fs) fs

/-- Embedding of `_mirror_move_file` (iterate_flow.py lines 625-649): move,
rename or copy the mirrored summary artifact, creating an empty destination
summary when the source summary is missing. -/
def mirrorMoveFile (cfg : ExecCfg) (src dst op : String) (fs : TextFS) : TextFS :=
  if ¬ isPyFileUnderSrc cfg src ∧ ¬ isPyFileUnderSrc cfg dst then fs
  else
    match summaryPathForCode cfg dst with
    | none => fs
    | some spDst =>
        match summaryPathForCode cfg src with
        | some spSrc =>
            match fsLookup fs spSrc with
            | some content =>
                if op = "copy" then fsWrite fs spDst content
                else fsWrite (fsErase fs spSrc) spDst content
            | none => if (fsLookup fs spDst).isSome then fs else fsWrite fs spDst ""
        | none => if (fsLookup fs spDst).isSome then fs else fsWrite fs spDst ""

/-- Embedding of `_mirror_create_dirs` (iterate_flow.py lines 597-607): the
helper only creates directories, which the file-map filesystem represents
implicitly; like `_mirror_delete_files` it receives the path string and
iterates characters. No file entry changes. -/
def mirrorCreateDirs (_cfg : ExecCfg) (_pathStr : String) (fs : TextFS) : TextFS := fs

/-- Embedding of `_mirror_delete_dirs` (iterate_flow.py lines 609-623),
again iterating the characters of the passed path string; a matching
summaries subtree is removed recursively (an `rmtree` failing on a
non-directory is caught and ignored). -/
def mirrorDeleteDirs (cfg : ExecCfg) (pathStr : String) (fs : TextFS) : TextFS :=
  pathStr.data.foldl (fun fs c =>
    let dp := String.singleton c
    match relativeTo cfg.srcDir (resolveStr cfg.cwd dp) with
    | some rel =>
        let t := cfg.summariesDir ++ rel
        if (fsLookup fs t).isSome then fs
        else fs.filter (fun e => ! t.isPrefixOf e.1)
    | none => fs) fs

/-- Charitable embedding of the imported `delete_file` (singular): the
plural `delete_files` (file_system.py lines 53-88) applied to one path
(skip when absent, unlink when present, return the absolute path). -/
def deleteFileOp (cfg : ExecCfg) (pathStr : String) (fs : TextFS) : TextFS × String :=
  let p := resolveStr cfg.cwd pathStr
  ((if (fsLookup fs p).isSome then fsErase fs p else fs), renderAbs p)

/-- Charitable embedding of the imported `create_directory` (singular):
`create_directories` on one path; directories are implicit in a file map. -/
def createDirectoryOp (cfg : ExecCfg) (pathStr : String) (fs : TextFS) : TextFS × String :=
  (fs, renderAbs (resolveStr cfg.cwd pathStr))

/-- Charitable embedding of the imported `delete_directory` (singular):
`delete_directories` on one path (recursive removal). -/
def deleteDirectoryOp (cfg : ExecCfg) (pathStr : String) (fs : TextFS) : TextFS × String :=
  let p := resolveStr cfg.cwd pathStr
  (fs.filter (fun e => ! p.isPrefixOf e.1), renderAbs p)

/-- Charitable embedding of the imported `rename_file`/`move_file`
(singular): move the file entry, skipping an absent source. -/
def renameFileOp (cfg : ExecCfg) (src dst : String) (fs : TextFS) : TextFS × String :=
  let ps := resolveStr cfg.cwd src
  let pd := resolveStr cfg.cwd dst
  match fsLookup fs ps with
  | some content => (fsWrite (fsErase fs ps) pd content, renderAbs pd)
  | none => (fs, renderAbs pd)

/-- Charitable embedding of the imported `copy_file` (singular): duplicate
the file entry, skipping an absent source. -/
def copyFileOp (cfg : ExecCfg) (src dst : String) (fs : TextFS) : TextFS × String :=
  let ps := resolveStr cfg.cwd src
  let pd := resolveStr cfg.cwd dst
  match fsLookup fs ps with
  | some content => (fsWrite fs pd content, renderAbs pd)
  | none => (fs, renderAbs pd)

/-- The executor's mutable accumulators (iterate_flow.py lines 706-716). -/
structure ExecState where
  fs : TextFS
  created : List String
  deletedFiles : List String
  createdDirs : List String
  deletedDirs : List String
  renamed : List String
  moved : List String
  copied : List String
  errors : List (Option Int × String × String)
  modifications : List DiffMod
  modulesToRefresh : List FPath
  deriving DecidableEq, Repr

/-- Initial executor state over a starting filesystem. -/
def initExecState (fs0 : TextFS) : ExecState :=
  ⟨fs0, [], [], [], [], [], [], [], [], [], []⟩

/-- Set-insertion for the `modules_to_refresh` set (insertion order kept). -/
def insertModule (l : List FPath) (x : FPath) : List FPath :=
  if l.contains x then l else l ++ [x]

/-- Embedding of the refresh-marking pattern repeated in the step loop:
when the path names a Python file under `src_dir`, record its module
directory in `modules_to_refresh`. -/
def markModuleFor (cfg : ExecCfg) (s : String) (st : ExecState) : ExecState :=
  if isPyFileUnderSrc cfg s then
    match relativeTo cfg.srcDir (resolveStr cfg.cwd s) with
    | some rel => { st with modulesToRefresh := insertModule st.modulesToRefresh rel.dropLast }
    | none => st
  else st

/-- Worker for `execStep`, taking the already-stripped step type and path.
Branches follow iterate_flow.py lines 718-916; the test-update sub-branch
of Modify code is vacuous in the modeled configurations (no test dirs), and
the points-based crew tiering is absorbed into the diff oracle (the tier
changes which crew runs, not how its diffs are accumulated). -/
def execStepCore (cfg : ExecCfg) (st : ExecState) (step : ActionStep)
    (stepType pathStr : String) : ExecState :=
  if pathStr = "" then st
  else if stepType = "Create new file" then
    let p := resolveStr cfg.cwd pathStr
    { st with fs := fsWrite st.fs p "", created := st.created ++ [renderAbs p] }
  else if stepType = "Delete file" then
    let fs1 := mirrorDeleteFiles cfg pathStr st.fs
    let r := deleteFileOp cfg pathStr fs1
    markModuleFor cfg pathStr { st with fs := r.1, deletedFiles := st.deletedFiles ++ [r.2] }
  else if stepType = "Create new directory" then
    let fs1 := mirrorCreateDirs cfg pathStr st.fs
    let r := createDirectoryOp cfg pathStr fs1
    { st with fs := r.1, createdDirs := st.createdDirs ++ [r.2] }
  else if stepType = "Delete directory" then
    let fs1 := mirrorDeleteDirs cfg pathStr st.fs
    let r := deleteDirectoryOp cfg pathStr fs1
    { st with fs := r.1, deletedDirs := st.deletedDirs ++ [r.2] }
  else if stepType = "Rename file" then
    match cfg.mapOracle stepType pathStr with
    | [] => st
    | (src, dst) :: _ =>
        let fs1 := mirrorMoveFile cfg src dst "rename" st.fs
        let r := renameFileOp cfg src dst fs1
        markModuleFor cfg dst (markModuleFor cfg src
          { st with fs := r.1, renamed := st.renamed ++ [r.2] })
  else if stepType = "Move file" then
    match cfg.mapOracle stepType pathStr with
    | [] => st
    | (src, dst) :: _ =>
        let fs1 := mirrorMoveFile cfg src dst "move" st.fs
        let r := renameFileOp cfg src dst fs1
        markModuleFor cfg dst (markModuleFor cfg src
          { st with fs := r.1, moved := st.moved ++ [r.2] })
  else if stepType = "Copy file" then
    match cfg.mapOracle stepType pathStr with
    | [] => st
    | (src, dst) :: _ =>
        let fs1 := mirrorMoveFile cfg src dst "copy" st.fs
        let r := copyFileOp cfg src dst fs1
        markModuleFor cfg dst { st with fs := r.1, copied := st.copied ++ [r.2] }
  else if stepType = "Modify code" then
    { st with modifications := st.modifications ++ cfg.diffOracle step }
  else
    { st with errors := st.errors ++ [(step.step, stepType, "Unsupported step type: " ++ stepType)] }

/-- Embedding of one iteration of the step loop: the step's type and path
are read from the dictionary and stripped (`(step.get("type") or
"").strip()`), then dispatched. -/
def execStep (cfg : ExecCfg) (st : ExecState) (step : ActionStep) : ExecState :=
  execStepCore cfg st step (pyStrip step.type) (pyStrip step.path)

/-- The whole step loop: a left fold of `execStep` over the plan. -/
def execSteps (cfg : ExecCfg) (plan : List ActionStep) (st : ExecState) : ExecState :=
  plan.foldl (execStep cfg) st

/-- Append `v` to the list at key `k`, creating the key at the end when
absent (Python `dict` insertion-order semantics for
`changes_by_file[path].append(content_diff)`). -/
def dictAppend (acc : List (Option String × List (Option String))) (k : Option String)
    (v : Option String) : List (Option String × List (Option String)) :=
  match acc with
  | [] => [(k, [v])]
  | e :: rest => if e.1 = k then (e.1, e.2 ++ [v]) :: rest else e :: dictAppend rest k v

/-- Embedding of the aggregation loop (iterate_flow.py lines 918-924):
group the accumulated modifications by path, preserving both key insertion
order and per-key production order. -/
def changes_by_file (mods : List DiffMod) : List (Option String × List (Option String)) :=
  mods.foldl (fun acc m => dictAppend acc m.path m.content_diff) []

/-- Lookup in the aggregated dictionary. -/
def lookupChanges (acc : List (Option String × List (Option String)))
    (k : Option String) : Option (List (Option String)) :=
  match acc with
  | [] => none
  | e :: rest => if e.1 = k then some e.2 else lookupChanges rest k

/-- The per-path diff list in production order (specification value). -/
def diffsFor (mods : List DiffMod) (p : Option String) : List (Option String) :=
  (mods.filter (fun m => m.path == p)).map DiffMod.content_diff

/-- The `code_fixes` list handed to the `FixIntegratorCrew` kickoff for a
given path in the post-loop integration pass (iterate_flow.py lines
927-940). -/
def integratorCallFixes (st : ExecState) (p : Option String) : Option (List (Option String)) :=
  lookupChanges (changes_by_file st.modifications) p

/-- Embedding of `(self.src_dir / path).resolve()` for a path string. -/
def joinUnder (base : FPath) (s : String) : FPath :=
  if headIs s '/' then pathComponents s else base ++ pathComponents s

/-- Embedding of `Path(path).parent` for a relative path string. -/
def relParent (s : String) : FPath := (pathComponents s).dropLast

/-- Embedding of the post-loop integration pass (iterate_flow.py lines
927-956): per aggregated path, read the original (or the placeholder "-"),
submit the diffs to the fix-integrator oracle, sanitize and write the
result, and record the path's module directory. Per-file summary
regeneration raises `TypeError` through the one-argument
`_process_file_summaries_chunk` call, swallowed by the surrounding
best-effort `except`, so no summary artifact changes here. A sanitizer
error propagates (it is raised outside any try block). -/
def integrationPass (cfg : ExecCfg) (entries : List (Option String × List (Option String)))
    (fs : TextFS) (refresh : List FPath) : Except String (TextFS × List FPath) :=
  match entries with
  | [] => Except.ok (fs, refresh)
  | (k, changes) :: rest =>
      let origInfo : Option FPath × String :=
        match k with
        | some pstr =>
            match fsLookup fs (joinUnder cfg.srcDir pstr) with
            | some content => (some (joinUnder cfg.srcDir pstr), content)
            | none => (none, "-")
        | none => (none, "-")
      match sanitize_generated_content (cfg.integratorOracle origInfo.2 changes) with
      | Except.error e => Except.error e
      | Except.ok fileResult =>
          let fs1 := match origInfo.1 with
            | some p => fsWrite fs p fileResult
            | none => fs
          let refresh1 := match origInfo.1, k with
            | some _, some pstr => insertModule refresh (relParent pstr)
            | _, _ => refresh
          integrationPass cfg rest fs1 refresh1

/-- Embedding of the module-summary regeneration loop (iterate_flow.py
lines 1042-1056): per recorded module, collect its file summaries; a
nonempty chunk reaches the one-argument module-summaries call, whose
`TypeError` the loop's `except: continue` swallows, so no artifact is
written (the `ok` branch is unreachable but translated). -/
def regenerateModules (cfg : ExecCfg) (modules : List FPath) (fs : TextFS) : TextFS :=
  modules.foldl (fun fs mrel =>
    let chunk := collectModuleFileSummaries cfg.summariesDir mrel fs
    if chunk.isEmpty then fs
    else
      match processModuleSummariesCall chunk with
      | Except.error _ => fs
      | Except.ok generated =>
          fsWrite fs (cfg.summariesDir ++ mrel ++ ["_module.yaml"]) (to_yaml_file_map generated)) fs

/-- Embedding of `execute_action_plan` end to end (step loop, the
`modules_to_refresh = set()` reassignment at line 926 that discards the
step loop's set, the integration pass, and module regeneration). Returns
the step-loop state, the final filesystem, and the final refresh set. -/
def executeActionPlanModel (cfg : ExecCfg) (plan : List ActionStep) (fs0 : TextFS) :
    Except String (ExecState × TextFS × List FPath) :=
  let st := execSteps cfg plan (initExecState fs0)
  match integrationPass cfg (changes_by_file st.modifications) st.fs [] with
  | Except.error e => Except.error e
  | Except.ok (fs1, refresh) => Except.ok (st, regenerateModules cfg refresh fs1, refresh)

/-! ## Summary synchronization (`IterateFlow.generate_summaries_if_needed`,
iterate_flow.py lines 395-465)

The sync step is embedded over a state holding the source tree and the
summaries tree, with paths relative to their respective roots. All file
reads succeed (contents live in the map), so the first missing file
summary reaches the one-argument `_process_file_summaries_chunk` call and
its `TypeError`; note the call is issued per missing *file* with the raw
file content (lines 428-434), not batched per module.
-/

/-- State of one repository for the sync step: source files (relative to
`source_root`) and summary artifacts (relative to `summaries_root`). -/
structure SyncState where
  src : List (FPath × String)
  summaries : List (FPath × String)
  deriving DecidableEq, Repr

/-- The Python files of the source tree excluding package markers
(`identify_project_structure`, line 309: `rglob("*.py")` minus
`__init__.py`). -/
def pyPathsOf (st : SyncState) : List (FPath × String) :=
  st.src.filter (fun e =>
    (nameSuffix (fileName e.1) == ".py") && (fileName e.1 != "__init__.py"))

/-- The files whose expected summary artifact (same relative path with the
`.yaml` suffix) is absent (lines 405-411). -/
def missingFileSummaries (st : SyncState) : List (FPath × String) :=
  (pyPathsOf st).filter (fun e => (fsLookup st.summaries (withSuffix e.1 ".yaml")).isNone)

/-- Set-union of the module directories (parents) of the Python files
(lines 416-417 and 442). -/
def moduleDirsOf (st : SyncState) : List FPath :=
  ((pyPathsOf st).map (fun e => e.1.dropLast)).foldl insertModule []

/-- The module directories whose `_module.yaml` sentinel is absent
(lines 443-448). -/
def missingModuleDirs (st : SyncState) : List FPath :=
  (moduleDirsOf st).filter (fun d => (fsLookup st.summaries (d ++ ["_module.yaml"])).isNone)

/-- Embedding of `generate_summaries_if_needed`. Phase 1 issues one
`_process_file_summaries_chunk(content)` call per missing file (each a
`TypeError`, see `processFileSummariesChunkCall`). Phase 2, reached only
with no missing file summaries, evaluates
`_collect_module_file_summaries_from_py_paths(module_dir, py_paths)` (line
454) whose `module_dir` is the phase-1 grouping loop's variable — unbound
when that loop never ran, so CPython raises `NameError` there. The
returned number counts completed collaborator calls. -/
def generate_summaries_if_needed (st : SyncState) : Except PyErr (SyncState × Nat) := do
  let _ ← (missingFileSummaries st).foldlM (fun (acc : Nat) e => do
      let _ ← processFileSummariesChunkCall e.2
      pure (acc + 1)) 0
  match missingModuleDirs st with
  | [] => pure (st, 0)
  | _ :: _ => Except.error PyErr.nameError

/-- C1 scenario: the source root holds exactly one source file `pkg/a.py`
(no package markers) and the summaries root holds no artifacts. -/
def syncC1 : SyncState := ⟨[(["pkg", "a.py"], "a content")], []⟩

/-! ## Debug loop (`NewProjectFlow.project_debugging`,
new_project_flow.py lines 222-306)

The test execution and the loop around it are embedded with Python values
(`PyVal`) for the result dictionaries, because the claims hinge on which
*keys* the dictionaries carry. The subprocess itself is an oracle giving
each attempt's outcome.
-/

/-- A Python value, as needed for the test-result dictionaries. -/
inductive PyVal where
  | none
  | int (i : Int)
  | str (s : String)
  | bool (b : Bool)
  | dict (entries : List (String × PyVal))
  | list (xs : List PyVal)

/-- Embedding of `dict.get(key)` (default `None`). -/
def dictGet (entries : List (String × PyVal)) (k : String) : PyVal :=
  match entries with
  | [] => PyVal.none
  | e :: rest => if e.1 = k then e.2 else dictGet rest k

/-- Outcome of one test-execution attempt, as the oracle reports it: is the
tests directory present, and the pytest exit code and streams otherwise
(a timeout surfaces as exit code -2, an execution error as -1). -/
structure TestOutcome where
  testsDirPresent : Bool
  returncode : Int
  stdout : String
  stderr : String

/-- Embedding of `_lint_and_execute_tests` (new_project_flow.py lines
239-306): the returned dictionary's keys follow the source — in particular
there is no top-level "returncode"; the exit code sits inside the
"pytest_output" entry (lines 278-283 and 299-306). Lint reports and the
`project_design` payload, irrelevant to the claims, are abbreviated to
`PyVal.none`. -/
def lintAndExecuteTests (o : TestOutcome) : List (String × PyVal) :=
  if o.testsDirPresent then
    [("tests_dir", PyVal.str "tests"),
     ("tests_linting_skipped", PyVal.bool false),
     ("tests_black_format", PyVal.none),
     ("tests_ruff_report", PyVal.none),
     ("pytest_output", PyVal.dict
        [("cmd", PyVal.str "python -m pytest -q"),
         ("stdout", PyVal.str o.stdout),
         ("stderr", PyVal.str o.stderr),
         ("returncode", PyVal.int o.returncode)]),
     ("project_design", PyVal.none)]
  else
    [("tests_dir", PyVal.str "tests"),
     ("tests_linting_skipped", PyVal.bool true),
     ("tests_linting_reason", PyVal.str "Tests directory not found"),
     ("project_design", PyVal.none),
     ("tests_black_format", PyVal.none),
     ("tests_ruff_report", PyVal.none),
     ("pytest_output", PyVal.none)]

/-- Embedding of Python `x != 0` for the values reachable here
(`None != 0` is `True`). -/
def pyNeZero (v : PyVal) : Bool :=
  match v with
  | PyVal.int i => decide (¬ i = 0)
  | _ => true

/-- The nested `pytest_output["returncode"]` of a test-result dictionary. -/
def pytestReturncode (d : List (String × PyVal)) : Option Int :=
  match dictGet d "pytest_output" with
  | PyVal.dict pd =>
      match dictGet pd "returncode" with
      | PyVal.int i => some i
      | _ => Option.none
  | _ => Option.none

/-- What one `project_debugging` invocation did: how many times the test
suite ran, how many iterations reached the analysis chain
(`_pytest_output_analysis` → `_analyze_involved_files` → `_bug_analysis`),
and whether the loop returned early through the `returncode` guard. -/
structure DebugStats where
  testRuns : Nat
  analysisRounds : Nat
  returnedEarly : Bool
  deriving DecidableEq, Repr

/-- Worker for `project_debugging`: one iteration runs the tests, then the
guard `if test_result.get("returncode") != 0: return {...,"bug_analysis":[]}`
(lines 226-230) either returns or lets the analysis chain run. -/
def projectDebuggingGo (oracle : Nat → TestOutcome) (i : Nat) : Nat → DebugStats
  | 0 => ⟨0, 0, false⟩
  | n + 1 =>
      let tr := lintAndExecuteTests (oracle i)
      if pyNeZero (dictGet tr "returncode") then ⟨1, 0, true⟩
      else
        let s := projectDebuggingGo oracle (i + 1) n
        ⟨s.testRuns + 1, s.analysisRounds + 1, s.returnedEarly⟩

/-- The loop-count constant `MAX_DEBUG_LOOPS` (new_project_flow.py line 36). -/
def MAX_DEBUG_LOOPS : Nat := 2

/-- Embedding of `NewProjectFlow.project_debugging` (lines 222-237),
parametrized by the value of the `for _ in range(...)` bound. The source
writes `settings.MAX_TEST_RUN_ATTEMPTS`, a name settings.py does not
define (`MAX_DEBUG_LOOPS` at line 36 is the evident attempt cap and is
otherwise unused); taking the bound as a parameter makes the counting
theorems hold for any value it could resolve to. -/
def project_debugging (oracle : Nat → TestOutcome) (attempts : Nat) : DebugStats :=
  projectDebuggingGo oracle 0 attempts

/-- A failing attempt: the tests directory exists and pytest exits 1. -/
def failingOutcome : TestOutcome := ⟨true, 1, "", "1 failed"⟩

/-! ## Concrete scenarios for the executor claims -/

/-- C3 scenario configuration: repository at `/repo` with `source_root`
`/repo/src` and summaries under `/repo/.pydev/summaries`; the working
directory is taken to be the source root — the most charitable resolution
for the plan's relative path. The path-resolution and diff oracles are
unused by a Delete-file plan. -/
def cfgC3 : ExecCfg :=
  { cwd := ["repo", "src"], srcDir := ["repo", "src"],
    summariesDir := ["repo", ".pydev", "summaries"],
    mapOracle := fun _ _ => [], diffOracle := fun _ => [],
    integratorOracle := fun _ _ => "" }

/-- C3 scenario filesystem: the source file `src/pkg/b.py` and its summary
artifact `summaries/pkg/b.yaml` both exist. -/
def fsC3 : TextFS :=
  [(["repo", "src", "pkg", "b.py"], "content b"),
   (["repo", ".pydev", "summaries", "pkg", "b.yaml"], "summary b")]

/-- C3 scenario plan: the single Delete-file step for `pkg/b.py`. -/
def planC3 : List ActionStep := [⟨some 1, "Delete file", "pkg/b.py", 1⟩]

/-- C4 scenario configuration: the diff oracle returns one diff per
Modify-code step, keyed by the step number, all targeting `pkg/x.py`. -/
def cfgC4 : ExecCfg :=
  { cwd := ["repo"], srcDir := ["repo", "src"],
    summariesDir := ["repo", ".pydev", "summaries"],
    mapOracle := fun _ _ => [],
    diffOracle := fun s =>
      match s.step with
      | some 1 => [⟨some "pkg/x.py", some "diff_A"⟩]
      | some 2 => [⟨some "pkg/x.py", some "diff_B"⟩]
      | some 3 => [⟨some "pkg/x.py", some "diff_C"⟩]
      | _ => [],
    integratorOracle := fun _ _ => "" }

/-- C4 scenario plan: three Modify-code steps in plan order. -/
def planC4 : List ActionStep :=
  [⟨some 1, "Modify code", "pkg/x.py", 1⟩,
   ⟨some 2, "Modify code", "pkg/x.py", 2⟩,
   ⟨some 3, "Modify code", "pkg/x.py", 3⟩]

/-- C7 witness configuration: the path-resolution oracle returns the empty
mapping for every request. -/
def cfgC7 : ExecCfg :=
  { cwd := ["repo"], srcDir := ["repo", "src"],
    summariesDir := ["repo", ".pydev", "summaries"],
    mapOracle := fun _ _ => [], diffOracle := fun _ => [],
    integratorOracle := fun _ _ => "" }

/-- C7 witness state: some files and a pre-existing error record. -/
def stC7 : ExecState :=
  { initExecState [(["repo", "src", "pkg", "a.py"], "code a")] with
    errors := [(some 0, "Frobnicate", "Unsupported step type: Frobnicate")] }

/-! ## Theorems -/

/-- C9: bug_fixer_for_points returns the Junior fixer crew for points = 1,
the Senior fixer crew for points = 2, and the Lead fixer crew for every
points >= 3; in particular points 3 and 99 select the same Lead tier. -/
theorem C9_fixer_tier_selection :
    bug_fixer_for_points 1 = FixerTier.junior ∧
    bug_fixer_for_points 2 = FixerTier.senior ∧
    (∀ p : Int, 3 ≤ p → bug_fixer_for_points p = FixerTier.lead) ∧
    bug_fixer_for_points 3 = bug_fixer_for_points 99 := by
  refine ⟨by decide, by decide, ?_, by decide⟩
  intro p hp
  unfold bug_fixer_for_points
  rw [if_neg (by omega), if_neg (by omega)]

/-- Witness for C9 at the concrete points value 7. -/
theorem C9_fixer_tier_selection_witness :
    bug_fixer_for_points 7 = FixerTier.lead :=
  C9_fixer_tier_selection.2.2.1 7 (by decide)

/-- Auxiliary: appending a newline character makes `endsNL` true. -/
theorem endsNL_append_newline (l : List Char) : endsNL (l ++ ['\n']) = true := by
  rw [endsNL, decide_eq_true_eq]
  rw [List.getLast?_concat]

/-- Auxiliary: any successful result of `sanitizeL` ends with a newline. -/
theorem sanitizeL_ok_endsNL (x l : List Char) (h : sanitizeL x = Except.ok l) :
    endsNL l = true := by
  unfold sanitizeL at h
  split at h
  · cases h
  · injection h with h2
    subst h2
    split
    · next he => exact he
    · exact endsNL_append_newline _

/-- C8 counterexample: `sanitize_generated_content` does not return on every
string input; on the input holding backslash-n, a space, then backslash-x,
the unescape pass raises `UnicodeDecodeError` (a truncated backslash-x
escape), so the claim fails at this explicit input. -/
theorem C8_sanitize_raises_counterexample :
    sanitize_generated_content "\\n \\x" = Except.error "truncated \\xXX escape" := by
  rfl

/-- C8 amended: for every string input on which the literal-escape decoding
step succeeds, sanitize_generated_content returns a string ending with a
trailing newline; in particular a surrounding triple-backtick fence is
removed and literal escape sequences are converted, as the two concrete
conjuncts exhibit. -/
theorem C8_sanitize_normalizes :
    (∀ s t, sanitize_generated_content s = Except.ok t → endsWithNewline t = true) ∧
    sanitize_generated_content "```python\nx = 1\n```" = Except.ok "x = 1\n" ∧
    sanitize_generated_content "a\\nb" = Except.ok "a\nb\n" := by
  refine ⟨?_, by rfl, by rfl⟩
  intro s t h
  unfold sanitize_generated_content at h
  cases hs : sanitizeL s.data with
  | error e =>
      rw [hs] at h
      exact Except.noConfusion h
  | ok l =>
      rw [hs] at h
      injection h with h2
      subst h2
      exact sanitizeL_ok_endsNL s.data l hs

/-- Witness for C8 at the concrete input "hello". -/
theorem C8_sanitize_normalizes_witness :
    sanitize_generated_content "hello" = Except.ok "hello\n" ∧
    endsWithNewline "hello\n" = true :=
  ⟨by rfl, C8_sanitize_normalizes.1 "hello" "hello\n" (by rfl)⟩

/-- Auxiliary: `dfsSet` stores the given entry at the given path. -/
theorem dfsLookup_set_self (fs : DirFS) (p : FPath) (v : DEntry) :
    dfsLookup (dfsSet fs p v) p = some v := by
  induction fs with
  | nil => simp [dfsSet, dfsLookup]
  | cons e rest ih =>
      by_cases he : e.1 = p
      · simp [dfsSet, he, dfsLookup]
      · rw [dfsSet, if_neg he, dfsLookup, if_neg he]
        exact ih

/-- Auxiliary: `dfsSet` leaves other paths unchanged. -/
theorem dfsLookup_set_other (fs : DirFS) (p q : FPath) (v : DEntry) (hqp : ¬ q = p) :
    dfsLookup (dfsSet fs p v) q = dfsLookup fs q := by
  have hpq : ¬ p = q := fun h => hqp h.symm
  induction fs with
  | nil => simp [dfsSet, dfsLookup, hpq]
  | cons e rest ih =>
      by_cases he : e.1 = p
      · have hneq : ¬ e.1 = q := by rw [he]; exact hpq
        rw [dfsSet, if_pos he, dfsLookup, if_neg hpq, dfsLookup, if_neg hneq]
      · rw [dfsSet, if_neg he]
        by_cases heq : e.1 = q
        · rw [dfsLookup, if_pos heq, dfsLookup, if_pos heq]
        · rw [dfsLookup, if_neg heq, dfsLookup, if_neg heq]
          exact ih

/-- Auxiliary: when no listed ancestor is a regular file, the directory
chain is created successfully and every existing entry is preserved. -/
theorem mkdirChain_ok (as : List FPath) (fs : DirFS)
    (h : as.all (fun a => ! isFileAt fs a) = true) :
    ∃ fs2, mkdirChain fs as = Except.ok fs2 ∧
      ∀ q e, dfsLookup fs q = some e → dfsLookup fs2 q = some e := by
  induction as generalizing fs with
  | nil => exact ⟨fs, rfl, fun _ _ hq => hq⟩
  | cons a as ih =>
      rw [List.all_cons, Bool.and_eq_true] at h
      obtain ⟨ha, has⟩ := h
      cases hl : dfsLookup fs a with
      | some e =>
          cases e with
          | file c => rw [isFileAt, hl] at ha; simp at ha
          | dir =>
              obtain ⟨fs2, hok, hpres⟩ := ih fs has
              exact ⟨fs2, by unfold mkdirChain; rw [hl]; exact hok, hpres⟩
      | none =>
          have hall : as.all (fun a' => ! isFileAt (dfsSet fs a DEntry.dir) a') = true := by
            rw [List.all_eq_true] at has ⊢
            intro a' ha'
            by_cases haa : a' = a
            · rw [haa, isFileAt, dfsLookup_set_self]; rfl
            · rw [isFileAt, dfsLookup_set_other fs a a' DEntry.dir haa]
              exact has a' ha'
          obtain ⟨fs2, hok, hpres⟩ := ih (dfsSet fs a DEntry.dir) hall
          refine ⟨fs2, by unfold mkdirChain; rw [hl]; exact hok, ?_⟩
          intro q e hq
          have hqa : ¬ q = a := fun hqa => by rw [hqa, hl] at hq; cases hq
          exact hpres q e (by rw [dfsLookup_set_other fs a q DEntry.dir hqa]; exact hq)

/-- C10: write_empty_files, the handler backing Create-new-file steps, on a
path naming an existing regular file truncates it to empty content
(destroying the previous content) and returns its absolute path; on a path
naming an existing directory it raises IsADirectoryError instead. -/
theorem C10_write_empty_files_truncates :
    (∀ (fs : DirFS) (p : FPath) (c : String),
      ancestorsOk fs p = true → dfsLookup fs p = some (DEntry.file c) →
      ∃ fs', write_empty_files [p] fs = Except.ok (fs', [p]) ∧
        dfsLookup fs' p = some (DEntry.file "")) ∧
    (∀ (fs : DirFS) (p : FPath),
      ancestorsOk fs p = true → dfsLookup fs p = some DEntry.dir →
      write_empty_files [p] fs = Except.error PyErr.isADirectoryError) := by
  constructor
  · intro fs p c hanc hfile
    obtain ⟨fs1, hok, hpres⟩ := mkdirChain_ok (prefixesOf p.dropLast) fs hanc
    have hl1 : dfsLookup fs1 p = some (DEntry.file c) := hpres p _ hfile
    refine ⟨dfsSet fs1 p (DEntry.file ""), ?_, dfsLookup_set_self fs1 p (DEntry.file "")⟩
    unfold write_empty_files writeEmptyGo mkdirParents
    rw [hok]
    dsimp only
    rw [hl1]
    rfl
  · intro fs p hanc hdir
    obtain ⟨fs1, hok, hpres⟩ := mkdirChain_ok (prefixesOf p.dropLast) fs hanc
    have hl1 : dfsLookup fs1 p = some DEntry.dir := hpres p _ hdir
    unfold write_empty_files writeEmptyGo mkdirParents
    rw [hok]
    dsimp only
    rw [hl1]

/-- Auxiliary: appending a value at a key makes it the key's last value. -/
theorem lookupChanges_dictAppend_self (acc : List (Option String × List (Option String)))
    (k : Option String) (v : Option String) :
    lookupChanges (dictAppend acc k v) k = some ((lookupChanges acc k).getD [] ++ [v]) := by
  induction acc with
  | nil => simp [dictAppend, lookupChanges]
  | cons e rest ih =>
      by_cases he : e.1 = k
      · rw [dictAppend, if_pos he, lookupChanges, if_pos he, lookupChanges, if_pos he]
        rfl
      · rw [dictAppend, if_neg he, lookupChanges, if_neg he, lookupChanges, if_neg he]
        exact ih

/-- Auxiliary: appending a value at one key leaves other keys unchanged. -/
theorem lookupChanges_dictAppend_other (acc : List (Option String × List (Option String)))
    (k k' : Option String) (v : Option String) (hkk : ¬ k' = k) :
    lookupChanges (dictAppend acc k v) k' = lookupChanges acc k' := by
  have hkk' : ¬ k = k' := fun h => hkk h.symm
  induction acc with
  | nil => simp [dictAppend, lookupChanges, hkk']
  | cons e rest ih =>
      by_cases he : e.1 = k
      · have hek : ¬ e.1 = k' := by rw [he]; exact hkk'
        simp [dictAppend, he, lookupChanges, hek, hkk']
      · by_cases hek : e.1 = k'
        · simp [dictAppend, he, lookupChanges, hek, hkk]
        · simpa [dictAppend, he, lookupChanges, hek] using ih

/-- Auxiliary: folding modifications over an accumulator that already holds
key `p` appends exactly the production-ordered diffs for `p`. -/
theorem changesFold_lookup_some (mods : List DiffMod)
    (acc : List (Option String × List (Option String))) (p : Option String)
    (l : List (Option String)) (h : lookupChanges acc p = some l) :
    lookupChanges (mods.foldl (fun acc m => dictAppend acc m.path m.content_diff) acc) p =
      some (l ++ diffsFor mods p) := by
  induction mods generalizing acc l with
  | nil => simpa [diffsFor] using h
  | cons m mods ih =>
      rw [List.foldl_cons]
      by_cases hmp : m.path = p
      · subst hmp
        have hself := lookupChanges_dictAppend_self acc m.path m.content_diff
        rw [h] at hself
        have hrec := ih (dictAppend acc m.path m.content_diff) (l ++ [m.content_diff]) hself
        rw [hrec]
        simp [diffsFor, List.filter_cons]
      · have hother := lookupChanges_dictAppend_other acc m.path p m.content_diff
          (fun hh => hmp hh.symm)
        rw [h] at hother
        have hrec := ih (dictAppend acc m.path m.content_diff) l hother
        rw [hrec]
        simp [diffsFor, List.filter_cons, hmp]

/-- Auxiliary: folding modifications over an accumulator without key `p`
produces exactly the production-ordered diffs for `p` (when any exist). -/
theorem changesFold_lookup_none (mods : List DiffMod)
    (acc : List (Option String × List (Option String))) (p : Option String)
    (h : lookupChanges acc p = none) :
    lookupChanges (mods.foldl (fun acc m => dictAppend acc m.path m.content_diff) acc) p =
      if mods.any (fun m => m.path == p) then some (diffsFor mods p) else none := by
  induction mods generalizing acc with
  | nil => simpa using h
  | cons m mods ih =>
      rw [List.foldl_cons]
      by_cases hmp : m.path = p
      · subst hmp
        have hself := lookupChanges_dictAppend_self acc m.path m.content_diff
        rw [h] at hself
        have hrec := changesFold_lookup_some mods (dictAppend acc m.path m.content_diff)
          m.path [m.content_diff] hself
        rw [hrec, List.any_cons]
        simp [diffsFor, List.filter_cons]
      · have hother := lookupChanges_dictAppend_other acc m.path p m.content_diff
          (fun hh => hmp hh.symm)
        rw [h] at hother
        have hrec := ih (dictAppend acc m.path m.content_diff) hother
        rw [hrec, List.any_cons]
        simp [diffsFor, List.filter_cons, hmp]

/-- C4: aggregation by path preserves production order — whenever the
aggregated dictionary holds a diff list for a path, it is exactly the
sequence of that path's diffs in modification order; and in the concrete
three-step plan the FixIntegrator call for `pkg/x.py` receives exactly
the diffs of steps 1, 2, 3 in plan order. -/
theorem C4_diff_aggregation_order :
    (∀ (mods : List DiffMod) (p : Option String) (l : List (Option String)),
      lookupChanges (changes_by_file mods) p = some l → l = diffsFor mods p) ∧
    integratorCallFixes (execSteps cfgC4 planC4 (initExecState [])) (some "pkg/x.py") =
      some [some "diff_A", some "diff_B", some "diff_C"] := by
  constructor
  · intro mods p l h
    rw [changes_by_file] at h
    rw [changesFold_lookup_none mods [] p rfl] at h
    by_cases hany : mods.any (fun m => m.path == p) = true
    · rw [if_pos hany] at h
      exact (Option.some.injEq _ _ ▸ h).symm
    · rw [if_neg hany] at h
      cases h
  · rfl

/-- Witness for C4's universal part at a concrete modification list. -/
theorem C4_diff_aggregation_order_witness :
    ([some "d1", some "d3"] : List (Option String)) =
      diffsFor [⟨some "a.py", some "d1"⟩, ⟨some "b.py", some "d2"⟩, ⟨some "a.py", some "d3"⟩]
        (some "a.py") :=
  C4_diff_aggregation_order.1
    [⟨some "a.py", some "d1"⟩, ⟨some "b.py", some "d2"⟩, ⟨some "a.py", some "d3"⟩]
    (some "a.py") [some "d1", some "d3"] (by rfl)

/-- C7: a Rename-file, Move-file or Copy-file step whose path-resolution
collaborator returns an empty mapping is skipped silently — the state
(filesystem, result lists, errors) is unchanged and execution continues
with the next step. -/
theorem C7_empty_mapping_skips_step :
    ∀ (cfg : ExecCfg) (st : ExecState) (step : ActionStep) (rest : List ActionStep),
      (pyStrip step.type = "Rename file" ∨ pyStrip step.type = "Move file" ∨
        pyStrip step.type = "Copy file") →
      ¬ pyStrip step.path = "" →
      cfg.mapOracle (pyStrip step.type) (pyStrip step.path) = [] →
      execStep cfg st step = st ∧
      execSteps cfg (step :: rest) st = execSteps cfg rest st := by
  intro cfg st step rest htype hpath hmap
  have h1 : execStep cfg st step = st := by
    rcases htype with h | h | h
    · rw [h] at hmap
      unfold execStep
      rw [h]
      unfold execStepCore
      rw [if_neg hpath, if_neg (by decide), if_neg (by decide), if_neg (by decide),
        if_neg (by decide), if_pos rfl, hmap]
    · rw [h] at hmap
      unfold execStep
      rw [h]
      unfold execStepCore
      rw [if_neg hpath, if_neg (by decide), if_neg (by decide), if_neg (by decide),
        if_neg (by decide), if_neg (by decide), if_pos rfl, hmap]
    · rw [h] at hmap
      unfold execStep
      rw [h]
      unfold execStepCore
      rw [if_neg hpath, if_neg (by decide), if_neg (by decide), if_neg (by decide),
        if_neg (by decide), if_neg (by decide), if_neg (by decide), if_pos rfl, hmap]
  refine ⟨h1, ?_⟩
  unfold execSteps
  rw [List.foldl_cons, h1]

/-- Witness for C7 at a concrete Move-file step and state. -/
theorem C7_empty_mapping_skips_step_witness :
    execStep cfgC7 stC7 ⟨some 2, "Move file", "move the helper module", 1⟩ = stC7 ∧
    execSteps cfgC7 [⟨some 2, "Move file", "move the helper module", 1⟩,
        ⟨some 3, "Create new file", "pkg/new.py", 1⟩] stC7 =
      execSteps cfgC7 [⟨some 3, "Create new file", "pkg/new.py", 1⟩] stC7 :=
  C7_empty_mapping_skips_step cfgC7 stC7 ⟨some 2, "Move file", "move the helper module", 1⟩
    [⟨some 3, "Create new file", "pkg/new.py", 1⟩] (Or.inr (Or.inl rfl)) (by decide) rfl

/-- C3 (code evaluation at the failing input): executing the plan
consisting of the single Delete-file step for `pkg/b.py` against a
repository holding `src/pkg/b.py` and `summaries/pkg/b.yaml` deletes the
source file, but the summary artifact survives (the mirror helper receives
the path string and iterates its characters), the module `pkg` recorded
during the step loop is discarded by the `modules_to_refresh = set()`
reassignment, and the final refresh set is empty — contradicting the
claim. -/
theorem C3_delete_step_keeps_summary_and_loses_refresh :
    (executeActionPlanModel cfgC3 planC3 fsC3).toOption.map
      (fun r => (fsLookup r.2.1 ["repo", ".pydev", "summaries", "pkg", "b.yaml"],
                 fsLookup r.2.1 ["repo", "src", "pkg", "b.py"],
                 r.1.modulesToRefresh, r.2.2)) =
    some (some "summary b", none, [["pkg"]], []) := by
  rfl

/-- Witness for C10: truncation of an existing file and the directory
error, at a concrete two-entry filesystem. -/
theorem C10_write_empty_files_truncates_witness :
    (∃ fs', write_empty_files [["home", "a.py"]]
        [(["home"], DEntry.dir), (["home", "a.py"], DEntry.file "old")] =
          Except.ok (fs', [["home", "a.py"]]) ∧
      dfsLookup fs' ["home", "a.py"] = some (DEntry.file "")) ∧
    write_empty_files [["home"]] [(["home"], DEntry.dir)] =
      Except.error PyErr.isADirectoryError :=
  ⟨C10_write_empty_files_truncates.1 _ _ "old" (by decide) (by decide),
   C10_write_empty_files_truncates.2 _ _ (by decide) (by decide)⟩

/-- C1 (code evaluation at the failing input): on a repository whose source
root holds exactly one source file `pkg/a.py` and whose summaries root is
empty, the sync step finds `pkg/a.py` missing and raises `TypeError` at the
first `_process_file_summaries_chunk` call (the wrapper passes one of the
callee's two required positional arguments), so no artifact is produced
and no collaborator call is issued — contradicting the claimed two calls
and two artifacts. -/
theorem C1_sync_raises_type_error :
    missingFileSummaries syncC1 = [(["pkg", "a.py"], "a content")] ∧
    generate_summaries_if_needed syncC1 = Except.error PyErr.typeError := by
  exact ⟨rfl, rfl⟩

/-- Auxiliary: a filter with a stronger predicate factors through a filter
with a weaker one. -/
theorem filter_of_filter_stronger {α : Type} (p q : α → Bool)
    (himp : ∀ a, p a = true → q a = true) (l : List α) :
    (l.filter q).filter p = l.filter p := by
  induction l with
  | nil => rfl
  | cons a l ih =>
      cases hq : q a with
      | true =>
          cases hp : p a with
          | true => simp [List.filter_cons, hq, hp, ih]
          | false => simp [List.filter_cons, hq, hp, ih]
      | false =>
          have hp : p a = false := by
            cases hp : p a with
            | true => rw [himp a hp] at hq; cases hq
            | false => rfl
          simp [List.filter_cons, hq, hp, ih]

/-- Auxiliary: entries matching the module-scan predicate lie under the
summaries root. -/
theorem scanPred_under_summaries (summariesDir relDir : FPath) (e : FPath × String)
    (h : (isDirectChildOf (summariesDir ++ relDir) e.1 &&
      nameSuffix (fileName e.1) == ".yaml") = true) :
    summariesDir.isPrefixOf e.1 = true := by
  rw [Bool.and_eq_true] at h
  have h1 : (summariesDir ++ relDir).isPrefixOf e.1 = true := by
    have := h.1
    rw [isDirectChildOf, Bool.and_eq_true] at this
    exact this.1
  rw [List.isPrefixOf_iff_prefix] at h1 ⊢
  exact List.IsPrefix.trans (List.prefix_append summariesDir relDir) h1

/-- C6: the input bundle handed to the ModuleSummary-generation collaborator
is a function of the summaries subtree alone — two filesystems agreeing on
every artifact under the summaries root (module file summaries byte for
byte) yield byte-identical collaborator inputs, regardless of any
difference in source files; raw source never reaches the call. -/
theorem C6_module_summary_input_purity :
    ∀ (summariesDir relDir : FPath) (sd : String) (fs1 fs2 : TextFS),
      fs1.filter (fun e => summariesDir.isPrefixOf e.1) =
        fs2.filter (fun e => summariesDir.isPrefixOf e.1) →
      moduleSummariesCrewInput (collectModuleFileSummaries summariesDir relDir fs1) sd =
        moduleSummariesCrewInput (collectModuleFileSummaries summariesDir relDir fs2) sd := by
  intro summariesDir relDir sd fs1 fs2 hagree
  have hfilter :
      fs1.filter (fun e => isDirectChildOf (summariesDir ++ relDir) e.1 &&
        nameSuffix (fileName e.1) == ".yaml") =
      fs2.filter (fun e => isDirectChildOf (summariesDir ++ relDir) e.1 &&
        nameSuffix (fileName e.1) == ".yaml") := by
    rw [← filter_of_filter_stronger _ _ (scanPred_under_summaries summariesDir relDir) fs1,
      ← filter_of_filter_stronger _ _ (scanPred_under_summaries summariesDir relDir) fs2,
      hagree]
  rw [moduleSummariesCrewInput, moduleSummariesCrewInput,
    collectModuleFileSummaries, collectModuleFileSummaries, hfilter]

/-- Witness for C6: two repositories with different source code for
`pkg/a.py` but identical summary artifacts produce the same collaborator
input. -/
theorem C6_module_summary_input_purity_witness :
    moduleSummariesCrewInput
      (collectModuleFileSummaries ["repo", ".pydev", "summaries"] ["pkg"]
        [(["repo", "src", "pkg", "a.py"], "code version 1"),
         (["repo", ".pydev", "summaries", "pkg", "a.yaml"], "summary a"),
         (["repo", ".pydev", "summaries", "pkg", "_module.yaml"], "old module summary")])
      "/repo/.pydev/summaries" =
    moduleSummariesCrewInput
      (collectModuleFileSummaries ["repo", ".pydev", "summaries"] ["pkg"]
        [(["repo", "src", "pkg", "a.py"], "code version 2 (rewritten)"),
         (["repo", ".pydev", "summaries", "pkg", "a.yaml"], "summary a"),
         (["repo", ".pydev", "summaries", "pkg", "_module.yaml"], "old module summary")])
      "/repo/.pydev/summaries" :=
  C6_module_summary_input_purity ["repo", ".pydev", "summaries"] ["pkg"]
    "/repo/.pydev/summaries" _ _ (by decide)

/-- Auxiliary: the debug loop's test-run count is bounded by the loop bound. -/
theorem projectDebuggingGo_testRuns_le (oracle : Nat → TestOutcome) (i n : Nat) :
    (projectDebuggingGo oracle i n).testRuns ≤ n := by
  induction n generalizing i with
  | zero => exact Nat.le_refl 0
  | succ n ih =>
      rw [projectDebuggingGo]
      split
      · exact Nat.succ_le_succ (Nat.zero_le n)
      · exact Nat.succ_le_succ (ih (i + 1))

/-- C5: a single project_debugging invocation executes the test suite at
most the attempt-cap number of times, whatever each attempt's outcome. -/
theorem C5_bounded_test_runs :
    ∀ oracle : Nat → TestOutcome,
      (project_debugging oracle MAX_DEBUG_LOOPS).testRuns ≤ MAX_DEBUG_LOOPS :=
  fun oracle => projectDebuggingGo_testRuns_le oracle 0 MAX_DEBUG_LOOPS

/-- Witness for C5 at the all-attempts-failing oracle. -/
theorem C5_bounded_test_runs_witness :
    (project_debugging (fun _ => failingOutcome) MAX_DEBUG_LOOPS).testRuns ≤ MAX_DEBUG_LOOPS :=
  C5_bounded_test_runs (fun _ => failingOutcome)

/-- C2 (code evaluation at the failing input): with the tests directory
present and pytest exiting 1 on every attempt, the nested exit code is 1
(a failing run), yet the top-level "returncode" key the guard reads is
absent (`dict.get` yields None), so the loop returns after a single test
run with zero analysis rounds — the failure-grouping, involved-file and
bug-analysis stages never run, contradicting the claim. -/
theorem C2_failing_exit_triggers_no_analysis :
    pytestReturncode (lintAndExecuteTests failingOutcome) = some 1 ∧
    dictGet (lintAndExecuteTests failingOutcome) "returncode" = PyVal.none ∧
    project_debugging (fun _ => failingOutcome) MAX_DEBUG_LOOPS = ⟨1, 0, true⟩ := by
  exact ⟨rfl, rfl, rfl⟩

end PydevAI
